import Mathlib

/-!
Shallow embedding of the Cloudflare code-review agent
(`src/code-review-agent/src/agent.ts`).

The agent's in-memory state (`CodeReviewState`) and the two SQLite tables
(`review_patterns`, `code_snippets`) are modelled as explicit data; each
callable method becomes a pure state transformer.  The external inference
capability (`env.AI.run`) is passed in as an oracle `String → Option String`
(`none` models a thrown inference error); wall-clock time (`Date.now()` /
`CURRENT_TIMESTAMP`) and `crypto.randomUUID()` are passed in as explicit
parameters, since each call reads them afresh.  SQL `AUTOINCREMENT` ids are
modelled by a next-id counter per table, starting at 1.  SQL statements are
modelled by SQLite's semantics against the schema `onStart` creates; in
particular the pattern upsert's `ON CONFLICT(pattern)` clause names a column
with no PRIMARY KEY or UNIQUE constraint, which SQLite rejects, so that
statement is modelled as always raising (`Except.error`), and methods whose
SQL can raise return `Except`.
-/

/-- Preferences record from `CodeReviewState.preferences` in agent.ts.
The TS `strictness` union type carries no runtime validation, so it is
modelled as a plain string. -/
structure Preferences where
  language : String
  styleGuide : String
  strictness : String
  focusAreas : List String
deriving DecidableEq

/-- One entry of `CodeReviewState.reviewHistory` in agent.ts. -/
structure ReviewRecord where
  id : String
  code : String
  review : String
  timestamp : Nat
  accepted : Bool
deriving DecidableEq

/-- The `patterns` summary object of `CodeReviewState` in agent.ts. -/
structure PatternsSummary where
  commonIssues : List String
  ignoredRules : List String
  customRules : List String
deriving DecidableEq

/-- The in-memory `CodeReviewState` of agent.ts. -/
structure CodeReviewState where
  userId : String
  preferences : Preferences
  reviewHistory : List ReviewRecord
  patterns : PatternsSummary
deriving DecidableEq

/-- One row of the `review_patterns` SQLite table (see `onStart`). -/
structure PatternRow where
  id : Nat
  patternType : String
  pattern : String
  frequency : Nat
  lastSeen : Nat
  userFeedback : Option String
deriving DecidableEq

/-- One row of the `code_snippets` SQLite table (see `onStart`).  The
`helpful` column is nullable and no code path ever writes it, so it is
omitted (always NULL). -/
structure SnippetRow where
  id : Nat
  code : String
  language : String
  review : String
  issuesFound : Nat
  timestamp : Nat
deriving DecidableEq

/-- The persisted SQLite database of one agent instance: both tables plus
their `AUTOINCREMENT` counters. -/
structure Db where
  reviewPatterns : List PatternRow
  nextPatternId : Nat
  codeSnippets : List SnippetRow
  nextSnippetId : Nat
deriving DecidableEq

/-- Full state of one `CodeReviewAgent` durable object: the in-memory
snapshot plus the SQL storage. -/
structure Agent where
  state : CodeReviewState
  db : Db
deriving DecidableEq

/-- The `initialState` literal of agent.ts. -/
def initialState : CodeReviewState :=
  { userId := ""
    preferences :=
      { language := "python"
        styleGuide := "PEP8"
        strictness := "moderate"
        focusAreas := ["readability", "performance", "security"] }
    reviewHistory := []
    patterns := { commonIssues := [], ignoredRules := [], customRules := [] } }

/-- Empty database as created by `onStart` (both tables empty, autoincrement
counters at 1). -/
def emptyDb : Db :=
  { reviewPatterns := [], nextPatternId := 1, codeSnippets := [], nextSnippetId := 1 }

/-- A fresh agent instance: `initialState` plus the empty tables. -/
def initialAgent : Agent := { state := initialState, db := emptyDb }

/-- Result object returned by `reviewCode`.  Fields absent from the JS
object on a given path are `none`. -/
structure ReviewResult where
  success : Bool
  review : Option String
  language : Option String
  error : Option String
  timestamp : Nat
deriving DecidableEq

/-- Result object returned by `provideFeedback`. -/
structure FeedbackResult where
  success : Bool
deriving DecidableEq

/-- Result object returned by `updatePreferences`. -/
structure PreferencesResult where
  success : Bool
  preferences : Preferences
deriving DecidableEq

/-- The five keywords of `countIssues`' regex, lower-cased
(`/issue|problem|error|warning|concern/gi`), in alternation order. -/
def issueKeywords : List (List Char) :=
  ["issue", "problem", "error", "warning", "concern"].map String.toList

/-- Fuel-indexed scan implementing the global regex match count of
`countIssues`: at each position try the alternatives in order; on a match
consume it and continue after it, otherwise advance one character.  The
input is already lower-cased, which models the `i` flag. -/
def countIssuesAux : Nat → List Char → Nat
  | 0, _ => 0
  | _ + 1, [] => 0
  | fuel + 1, c :: cs =>
    match issueKeywords.find? (fun k => k.isPrefixOf (c :: cs)) with
    | some k => 1 + countIssuesAux fuel (List.drop k.length (c :: cs))
    | none => countIssuesAux fuel cs

/-- The private `countIssues` helper of agent.ts: number of non-overlapping
case-insensitive occurrences of the five keywords in the review text. -/
def countIssues (review : String) : Nat :=
  countIssuesAux review.toList.length (review.toList.map Char.toLower)

/-- The literal characters `Issue:` matched by `learnFromReview`'s regex
`/Issue:([^.]+)/g` (case-sensitive). -/
def issueMarker : List Char := "Issue:".toList

/-- Fuel-indexed scan implementing `review.match(/Issue:([^.]+)/g)`:
find `Issue:` followed by at least one non-period character; the match is
the marker plus the maximal run of non-period characters; scanning resumes
after the match; on no match at this position, advance one character. -/
def extractAux : Nat → List Char → List (List Char)
  | 0, _ => []
  | _ + 1, [] => []
  | fuel + 1, c :: cs =>
    if issueMarker.isPrefixOf (c :: cs) then
      let body := ((c :: cs).drop 6).takeWhile (fun ch => ch != '.')
      if body.isEmpty then
        extractAux fuel cs
      else
        (issueMarker ++ body) :: extractAux fuel (((c :: cs).drop 6).drop body.length)
    else
      extractAux fuel cs

/-- The pattern phrases extracted by `learnFromReview` from a review text
(`review.match(/Issue:([^.]+)/g) || []`), in order of occurrence. -/
def extractIssuePatterns (review : String) : List String :=
  (extractAux review.toList.length review.toList).map String.mk

/-- Error raised by the SQL engine.  SQLite rejects an upsert whose
`ON CONFLICT` target names no PRIMARY KEY or UNIQUE constraint with
"ON CONFLICT clause does not match any PRIMARY KEY or UNIQUE constraint";
inside `learnFromReview` that SQL error becomes a thrown (and, in
`reviewCode`, caught) exception. -/
inductive SqlError where
  | onConflictNoUniqueIndex
deriving DecidableEq

/-- One attempted execution of `learnFromReview`'s SQL statement
`INSERT INTO review_patterns (pattern_type, pattern) VALUES ('detected_issue', ?)
ON CONFLICT(pattern) DO UPDATE SET frequency = frequency + 1,
last_seen = CURRENT_TIMESTAMP`.  The `review_patterns` schema created by
`onStart` has no PRIMARY KEY or UNIQUE constraint on `pattern` (only
`id INTEGER PRIMARY KEY AUTOINCREMENT`), so SQLite rejects the statement
at prepare time: it always fails and writes nothing. -/
def upsertPattern (_db : Db) (_p : String) (_now : Nat) : Except SqlError Db :=
  Except.error SqlError.onConflictNoUniqueIndex

/-- The `for` loop of `learnFromReview`: run the upsert statement for each
extracted phrase in order, stopping at (and propagating) the first SQL
error.  Since the statement always errors, the loop errors on its first
iteration whenever the phrase list is non-empty. -/
def learnPatternsLoop : Agent → List String → Nat → Except SqlError Agent
  | a, [], _ => Except.ok a
  | a, p :: ps, now =>
    match upsertPattern a.db p now with
    | Except.ok db2 => learnPatternsLoop { a with db := db2 } ps now
    | Except.error e => Except.error e

/-- The `learnFromReview` method of agent.ts: extract every
`Issue:<text up to the next period>` phrase and run the upsert statement
for each, in order.  With no extracted phrase the loop body never runs
and the method returns normally; with at least one phrase the first
iteration's statement throws and nothing is written. -/
def learnFromReview (a : Agent) (review : String) (now : Nat) : Except SqlError Agent :=
  learnPatternsLoop a (extractIssuePatterns review) now

/-- Stable insertion step for `ORDER BY frequency DESC`: keep earlier rows
with strictly greater frequency in front, then place the row, so rows with
equal frequency keep their table order. -/
def insertByFreq (r : PatternRow) : List PatternRow → List PatternRow
  | [] => [r]
  | x :: xs => if x.frequency > r.frequency then x :: insertByFreq r xs else r :: x :: xs

/-- Stable sort by descending frequency (insertion sort). -/
def sortByFreqDesc : List PatternRow → List PatternRow
  | [] => []
  | x :: xs => insertByFreq x (sortByFreqDesc xs)

/-- The query at the top of `reviewCode`:
`SELECT pattern, user_feedback FROM review_patterns WHERE pattern_type =
'common_issue' ORDER BY frequency DESC LIMIT 5` (stable descending sort on
frequency). -/
def selectRecentPatterns (db : Db) : List PatternRow :=
  (sortByFreqDesc (db.reviewPatterns.filter (fun r => r.patternType == "common_issue"))).take 5

/-- Leading part of the `buildReviewPrompt` template literal, up to the
optional common-issues clause. -/
def promptHead (language : String) (prefs : Preferences) : String :=
  "You are an expert " ++ language ++ " code reviewer.\n" ++
  "Review the following code with " ++ prefs.strictness ++ " strictness.\n" ++
  "Focus on: " ++ String.intercalate ", " prefs.focusAreas ++ ".\n" ++
  "Style guide: " ++ prefs.styleGuide ++ ".\n\n"

/-- The conditional clause of `buildReviewPrompt`:
`patterns.length > 0 ? '\nCommon issues to check: ...' : ''`. -/
def promptPatternClause (patterns : List PatternRow) : String :=
  if patterns.length > 0 then
    "\nCommon issues to check: " ++
      String.intercalate ", " (patterns.map (fun p => p.pattern))
  else ""

/-- Trailing part of the `buildReviewPrompt` template literal, from the
code fence to the end. -/
def promptTail (language code : String) : String :=
  "\n\nCode to review:\n```" ++ language ++ "\n" ++ code ++ "\n```\n\n" ++
  "Provide a structured review with:\n1. Issues found (if any)\n" ++
  "2. Suggestions for improvement\n3. Good practices observed\n" ++
  "4. Security concerns (if any)\n\nBe constructive and educational."

/-- The private `buildReviewPrompt` method of agent.ts (pure template
interpolation). -/
def buildReviewPrompt (code language : String) (prefs : Preferences)
    (patterns : List PatternRow) : String :=
  promptHead language prefs ++ promptPatternClause patterns ++ promptTail language code

/-- The `storeReview` method of agent.ts: insert one `code_snippets` row
(with `issues_found` computed by `countIssues`), then push the new
`ReviewRecord` (with `accepted: false`) on the front of `reviewHistory`,
popping the last entry if the length exceeds 10. -/
def storeReview (a : Agent) (code review language : String) (now : Nat)
    (newId : String) : Agent :=
  let db1 :=
    { a.db with
      codeSnippets :=
        a.db.codeSnippets ++
          [{ id := a.db.nextSnippetId, code := code, language := language,
             review := review, issuesFound := countIssues review, timestamp := now }]
      nextSnippetId := a.db.nextSnippetId + 1 }
  let pushed :=
    { id := newId, code := code, review := review, timestamp := now,
      accepted := false } :: a.state.reviewHistory
  let hist := if pushed.length > 10 then pushed.dropLast else pushed
  { state := { a.state with reviewHistory := hist }, db := db1 }

/-- The prompt that a `reviewCode` call sends to the inference capability:
built from the requested (or default) language, the current preferences,
and the `common_issue` pattern query. -/
def reviewPromptFor (a : Agent) (code : String) (language : Option String) : String :=
  buildReviewPrompt code (language.getD a.state.preferences.language)
    a.state.preferences (selectRecentPatterns a.db)

/-- The `reviewCode` method of agent.ts.  `ai` is the inference oracle:
`some text` models a successful `env.AI.run` response, `none` a thrown
inference error.  The `try` block covers the inference call, `storeReview`
and `learnFromReview`; its `catch` returns the failure object.  So an
inference failure returns failure with no state change, but when inference
succeeds `storeReview` runs first, and if `learnFromReview` then throws
(any review with an `Issue:` phrase), the caught error produces the same
failure object while the snippet insert and the history append persist. -/
def reviewCode (a : Agent) (code : String) (language : Option String)
    (ai : String → Option String) (now : Nat) (newId : String) :
    Agent × ReviewResult :=
  let userLanguage := language.getD a.state.preferences.language
  match ai (reviewPromptFor a code language) with
  | some review =>
    let a1 := storeReview a code review userLanguage now newId
    match learnFromReview a1 review now with
    | Except.ok a2 =>
      (a2, { success := true, review := some review, language := some userLanguage,
             error := none, timestamp := now })
    | Except.error _ =>
      (a1, { success := false, review := none, language := none,
             error := some "Failed to generate review", timestamp := now })
  | none =>
    (a, { success := false, review := none, language := none,
          error := some "Failed to generate review", timestamp := now })

/-- Partial preferences argument of `updatePreferences`
(`Partial<CodeReviewState['preferences']>`): `none` models an absent key. -/
structure PartialPreferences where
  language : Option String := none
  styleGuide : Option String := none
  strictness : Option String := none
  focusAreas : Option (List String) := none
deriving DecidableEq

/-- The JS spread `{ ...this.state.preferences, ...preferences }`: each
supplied key overrides, each absent key keeps the current value. -/
def mergePreferences (cur : Preferences) (p : PartialPreferences) : Preferences :=
  { language := p.language.getD cur.language
    styleGuide := p.styleGuide.getD cur.styleGuide
    strictness := p.strictness.getD cur.strictness
    focusAreas := p.focusAreas.getD cur.focusAreas }

/-- The `updatePreferences` method of agent.ts: shallow-merge into
`preferences`, replace the snapshot, and return the merged preferences. -/
def updatePreferences (a : Agent) (p : PartialPreferences) :
    Agent × PreferencesResult :=
  let a1 := { a with state := { a.state with preferences := mergePreferences a.state.preferences p } }
  (a1, { success := true, preferences := a1.state.preferences })

/-- The `provideFeedback` method of agent.ts: look the id up in the
in-memory history (`findIndex`); if found, set that record's `accepted`
field to `helpful` and, when `!helpful && comments` is truthy (i.e.
`helpful` is false and `comments` is a non-empty string), additionally
insert one `user_preference` row with `user_feedback = 'negative'`;
always return `{ success: true }`. -/
def provideFeedback (a : Agent) (reviewId : String) (helpful : Bool)
    (comments : Option String) (now : Nat) : Agent × FeedbackResult :=
  let hist := a.state.reviewHistory
  let idx := hist.findIdx (fun r => r.id == reviewId)
  if h : idx < hist.length then
    let r := hist.get ⟨idx, h⟩
    let a1 := { a with state := { a.state with
      reviewHistory := hist.set idx { r with accepted := helpful } } }
    let a2 :=
      if helpful = false ∧ comments.getD "" ≠ "" then
        { a1 with db := { a1.db with
          reviewPatterns :=
            a1.db.reviewPatterns ++
              [{ id := a1.db.nextPatternId, patternType := "user_preference",
                 pattern := comments.getD "", frequency := 1, lastSeen := now,
                 userFeedback := some "negative" }]
          nextPatternId := a1.db.nextPatternId + 1 }}
      else a1
    (a2, { success := true })
  else
    (a, { success := true })

/-- The ReviewRecord created by the k-th `reviewCode` call in a run where
call k happens at time k with fresh id `toString k`. -/
def recAt (cf rf : Nat → String) (k : Nat) : ReviewRecord :=
  { id := toString k, code := cf k, review := rf k, timestamp := k, accepted := false }

/-- n consecutive successful `reviewCode` calls from the initial agent:
call k submits code `cf k` in language `lf k`, the inference capability
returns `rf k`, the wall clock reads k and the fresh id is `toString k`. -/
def runReviews (cf rf : Nat → String) (lf : Nat → Option String) : Nat → Agent
  | 0 => initialAgent
  | n + 1 =>
    (reviewCode (runReviews cf rf lf n) (cf (n + 1)) (lf (n + 1))
      (fun _ => some (rf (n + 1))) (n + 1) (toString (n + 1))).1

/-! Helper lemmas about the embedded operations. -/

theorem learnFromReview_ok_of_no_phrase (a : Agent) (review : String) (now : Nat)
    (h : extractIssuePatterns review = []) :
    learnFromReview a review now = Except.ok a := by
  unfold learnFromReview
  rw [h]
  rfl

theorem learnFromReview_err_of_phrase (a : Agent) (review : String) (now : Nat)
    (h : extractIssuePatterns review ≠ []) :
    learnFromReview a review now = Except.error SqlError.onConflictNoUniqueIndex := by
  obtain ⟨p, ps, hcons⟩ := List.exists_cons_of_ne_nil h
  unfold learnFromReview
  rw [hcons]
  rfl

/-- `learnFromReview` either returns with the agent completely unchanged
(no `Issue:` phrase, so the loop body never ran) or throws the SQL error
having written nothing: the broken upsert statement never stores or
updates any row. -/
theorem learnFromReview_cases (a : Agent) (review : String) (now : Nat) :
    learnFromReview a review now = Except.ok a
    ∨ learnFromReview a review now = Except.error SqlError.onConflictNoUniqueIndex := by
  by_cases h : extractIssuePatterns review = []
  · exact Or.inl (learnFromReview_ok_of_no_phrase a review now h)
  · exact Or.inr (learnFromReview_err_of_phrase a review now h)

theorem learnFromReview_ok_eq (a b : Agent) (review : String) (now : Nat)
    (h : learnFromReview a review now = Except.ok b) : b = a := by
  rcases learnFromReview_cases a review now with hok | herr
  · rw [hok] at h
    exact (Except.ok.inj h).symm
  · rw [herr] at h
    exact absurd h (by simp)

theorem take_ten_push {α : Type} (r : α) (l : List α) :
    (if (r :: l.take 10).length > 10 then (r :: l.take 10).dropLast else r :: l.take 10)
      = (r :: l).take 10 := by
  rcases le_or_lt l.length 9 with hle | hlt
  · rw [if_neg, List.take_succ_cons, List.take_of_length_le hle,
      List.take_of_length_le (le_trans hle (by omega))]
    simp only [List.length_cons, List.length_take]
    omega
  · rw [if_pos, List.dropLast_eq_take, List.take_succ_cons]
    · simp only [List.length_cons, List.length_take, List.take_take]
      have h11 : (min 10 l.length) + 1 - 1 = 10 := by omega
      rw [h11, List.take_succ_cons, List.take_take]
      congr 1
    · simp only [List.length_cons, List.length_take]
      omega

theorem extractAux_sound :
    ∀ (fuel : Nat) (l m : List Char), m ∈ extractAux fuel l →
      issueMarker <+: m ∧ '.' ∉ m := by
  intro fuel
  induction fuel with
  | zero => intro l m hm; simp [extractAux] at hm
  | succ n ih =>
    intro l m hm
    cases l with
    | nil => simp [extractAux] at hm
    | cons c cs =>
      simp only [extractAux] at hm
      by_cases hpre : issueMarker.isPrefixOf (c :: cs)
      · rw [if_pos hpre] at hm
        by_cases hb : (((c :: cs).drop 6).takeWhile (fun ch => ch != '.')).isEmpty
        · rw [if_pos hb] at hm
          exact ih cs m hm
        · rw [if_neg hb] at hm
          rcases List.mem_cons.1 hm with heq | hmem
          · subst heq
            refine ⟨List.prefix_append _ _, ?_⟩
            intro hdot
            rcases List.mem_append.1 hdot with hin | hin
            · revert hin; decide
            · have := List.mem_takeWhile_imp hin
              simp at this
          · exact ih _ m hmem
      · rw [if_neg hpre] at hm
        exact ih cs m hm

/-- A `reviewCode` call whose inference succeeds with a review containing
no `Issue:` phrase is a genuinely successful call: the loop in
`learnFromReview` never runs its erroring statement, so the call returns
success with exactly the `storeReview` writes. -/
theorem reviewCode_of_some_ok (a : Agent) (code : String) (language : Option String)
    (ai : String → Option String) (now : Nat) (newId review : String)
    (h : ai (reviewPromptFor a code language) = some review)
    (hok : extractIssuePatterns review = []) :
    reviewCode a code language ai now newId
      = (storeReview a code review (language.getD a.state.preferences.language) now newId,
         { success := true, review := some review,
           language := some (language.getD a.state.preferences.language),
           error := none, timestamp := now }) := by
  simp only [reviewCode, h]
  rw [learnFromReview_ok_of_no_phrase _ review now hok]

/-- A `reviewCode` call whose inference succeeds with a review containing
an `Issue:` phrase fails after persisting: `storeReview`'s snippet insert
and history append stand, then `learnFromReview`'s statement throws and
the caught error yields the failure result. -/
theorem reviewCode_of_some_err (a : Agent) (code : String) (language : Option String)
    (ai : String → Option String) (now : Nat) (newId review : String)
    (h : ai (reviewPromptFor a code language) = some review)
    (herr : extractIssuePatterns review ≠ []) :
    reviewCode a code language ai now newId
      = (storeReview a code review (language.getD a.state.preferences.language) now newId,
         { success := false, review := none, language := none,
           error := some "Failed to generate review", timestamp := now }) := by
  simp only [reviewCode, h]
  rw [learnFromReview_err_of_phrase _ review now herr]

theorem reviewCode_of_none (a : Agent) (code : String) (language : Option String)
    (ai : String → Option String) (now : Nat) (newId : String)
    (h : ai (reviewPromptFor a code language) = none) :
    reviewCode a code language ai now newId
      = (a, { success := false, review := none, language := none,
              error := some "Failed to generate review", timestamp := now }) := by
  unfold reviewCode
  rw [h]

theorem storeReview_hist (a : Agent) (code review language : String) (now : Nat)
    (newId : String) :
    (storeReview a code review language now newId).state.reviewHistory
      = (if ({ id := newId, code := code, review := review, timestamp := now,
               accepted := false } :: a.state.reviewHistory).length > 10
         then ({ id := newId, code := code, review := review, timestamp := now,
                 accepted := false } :: a.state.reviewHistory).dropLast
         else { id := newId, code := code, review := review, timestamp := now,
                accepted := false } :: a.state.reviewHistory) := rfl
theorem runReviews_hist (cf rf : Nat → String) (lf : Nat → Option String)
    (hok : ∀ k, extractIssuePatterns (rf k) = []) :
    ∀ n : Nat,
      (runReviews cf rf lf n).state.reviewHistory
        = (((List.range n).reverse.map (fun k => recAt cf rf (k + 1))).take 10) := by
  intro n
  induction n with
  | zero => rfl
  | succ n ih =>
    have hstep :
        (runReviews cf rf lf (n + 1)).state.reviewHistory
          = (if (recAt cf rf (n + 1) :: (runReviews cf rf lf n).state.reviewHistory).length > 10
             then (recAt cf rf (n + 1) :: (runReviews cf rf lf n).state.reviewHistory).dropLast
             else recAt cf rf (n + 1) :: (runReviews cf rf lf n).state.reviewHistory) := by
      show (reviewCode (runReviews cf rf lf n) (cf (n + 1)) (lf (n + 1))
        (fun _ => some (rf (n + 1))) (n + 1) (toString (n + 1))).1.state.reviewHistory = _
      rw [reviewCode_of_some_ok _ _ _ _ _ _ (rf (n + 1)) rfl (hok (n + 1))]
      rw [storeReview_hist]
      rfl
    rw [hstep, ih, take_ten_push]
    congr 1
    rw [List.range_succ, List.reverse_append]
    simp
/-- `provideFeedback` on an id absent from the history is a pure no-op. -/
theorem provideFeedback_of_absent (a : Agent) (reviewId : String) (helpful : Bool)
    (comments : Option String) (now : Nat)
    (h : ∀ r ∈ a.state.reviewHistory, r.id ≠ reviewId) :
    provideFeedback a reviewId helpful comments now = (a, { success := true }) := by
  have hidx : a.state.reviewHistory.findIdx (fun r => r.id == reviewId)
      = a.state.reviewHistory.length :=
    List.findIdx_eq_length.2 (fun x hx => by simp [h x hx])
  unfold provideFeedback
  rw [dif_neg (by rw [hidx]; exact lt_irrefl _)]

/-- On the found path `provideFeedback` replaces the matched record by the
same record with `accepted := helpful`, and (iff the feedback is negative
with non-empty comments) appends one `user_preference` row. -/
theorem provideFeedback_of_found (a : Agent) (reviewId : String) (helpful : Bool)
    (comments : Option String) (now : Nat)
    (h : a.state.reviewHistory.findIdx (fun r => r.id == reviewId)
      < a.state.reviewHistory.length) :
    provideFeedback a reviewId helpful comments now
      = (let idx := a.state.reviewHistory.findIdx (fun r => r.id == reviewId)
         let r := a.state.reviewHistory.get ⟨idx, h⟩
         let a1 := { a with state := { a.state with
           reviewHistory := a.state.reviewHistory.set idx { r with accepted := helpful } } }
         let a2 :=
           if helpful = false ∧ comments.getD "" ≠ "" then
             { a1 with db := { a1.db with
               reviewPatterns :=
                 a1.db.reviewPatterns ++
                   [{ id := a1.db.nextPatternId, patternType := "user_preference",
                      pattern := comments.getD "", frequency := 1, lastSeen := now,
                      userFeedback := some "negative" }]
               nextPatternId := a1.db.nextPatternId + 1 }}
           else a1
         (a2, { success := true })) := by
  unfold provideFeedback
  rw [dif_pos h]
theorem map_id_set (l : List ReviewRecord) (i : Nat) (hi : i < l.length) (b : Bool) :
    (l.set i { l.get ⟨i, hi⟩ with accepted := b }).map (fun r => r.id)
      = l.map (fun r => r.id) := by
  apply List.ext_getElem?
  intro j
  by_cases hj : i = j
  · subst hj
    rw [List.getElem?_map, List.getElem?_map, List.getElem?_set_self hi,
      List.getElem?_eq_getElem hi]
    rfl
  · rw [List.getElem?_map, List.getElem?_map, List.getElem?_set_ne hj]

/-- `provideFeedback` never changes the sequence of history ids. -/
theorem provideFeedback_ids (a : Agent) (reviewId : String) (helpful : Bool)
    (comments : Option String) (now : Nat) :
    (provideFeedback a reviewId helpful comments now).1.state.reviewHistory.map (fun r => r.id)
      = a.state.reviewHistory.map (fun r => r.id) := by
  by_cases h : a.state.reviewHistory.findIdx (fun r => r.id == reviewId)
      < a.state.reviewHistory.length
  · rw [provideFeedback_of_found a reviewId helpful comments now h]
    by_cases hneg : helpful = false ∧ comments.getD "" ≠ ""
    · simp only [if_pos hneg]
      exact map_id_set _ _ h helpful
    · simp only [if_neg hneg]
      exact map_id_set _ _ h helpful
  · have habs : ∀ r ∈ a.state.reviewHistory, r.id ≠ reviewId := by
      intro r hr hcontra
      exact h (List.findIdx_lt_length.2 ⟨r, hr, by simp [hcontra]⟩)
    rw [provideFeedback_of_absent a reviewId helpful comments now habs]

/-- On the found path with negative feedback and non-empty comments, the
db gains exactly the one `user_preference` row. -/
theorem provideFeedback_found_db (a : Agent) (reviewId : String) (helpful : Bool)
    (comments : Option String) (now : Nat)
    (h : a.state.reviewHistory.findIdx (fun r => r.id == reviewId)
      < a.state.reviewHistory.length)
    (hneg : helpful = false ∧ comments.getD "" ≠ "") :
    (provideFeedback a reviewId helpful comments now).1.db
      = { a.db with
          reviewPatterns :=
            a.db.reviewPatterns ++
              [{ id := a.db.nextPatternId, patternType := "user_preference",
                 pattern := comments.getD "", frequency := 1, lastSeen := now,
                 userFeedback := some "negative" }]
          nextPatternId := a.db.nextPatternId + 1 } := by
  rw [provideFeedback_of_found a reviewId helpful comments now h]
  simp only [if_pos hneg]
/-- On the found path, the history update is `set` at the found index with
only the `accepted` field replaced, whatever the feedback flags are. -/
theorem provideFeedback_found_hist (a : Agent) (reviewId : String) (b : Bool)
    (comments : Option String) (now : Nat)
    (h : a.state.reviewHistory.findIdx (fun r => r.id == reviewId)
      < a.state.reviewHistory.length) :
    (provideFeedback a reviewId b comments now).1.state.reviewHistory
      = a.state.reviewHistory.set
          (a.state.reviewHistory.findIdx (fun r => r.id == reviewId))
          { a.state.reviewHistory.get
              ⟨a.state.reviewHistory.findIdx (fun r => r.id == reviewId), h⟩ with
            accepted := b } := by
  rw [provideFeedback_of_found a reviewId b comments now h]
  by_cases hneg : b = false ∧ comments.getD "" ≠ ""
  · simp only [if_pos hneg]
  · simp only [if_neg hneg]

/-- Claim C1: starting from the initial state, after any sequence of N
successful `reviewCode` calls the review history is exactly the reversed
sequence of the N created records truncated to the 10 newest: its length
is min(N,10), the most recent record is first, records appear in
reverse-chronological order, and for N > 10 the oldest N-10 records have
been evicted.  The hypothesis that no review text carries an `Issue:`
phrase characterizes exactly the runs whose calls all succeed (a phrase
would make `learnFromReview`'s broken upsert throw and the call report
failure); the third conjunct certifies that every call in the run indeed
returned success. -/
theorem C1_bounded_history (cf rf : Nat → String) (lf : Nat → Option String) (n : Nat)
    (hok : ∀ k, extractIssuePatterns (rf k) = []) :
    (runReviews cf rf lf n).state.reviewHistory
      = (((List.range n).reverse.map (fun k => recAt cf rf (k + 1))).take 10)
    ∧ (runReviews cf rf lf n).state.reviewHistory.length = min n 10
    ∧ (∀ k, k < n →
        (reviewCode (runReviews cf rf lf k) (cf (k + 1)) (lf (k + 1))
          (fun _ => some (rf (k + 1))) (k + 1) (toString (k + 1))).2.success = true) := by
  refine ⟨runReviews_hist cf rf lf hok n, ?_, ?_⟩
  · rw [runReviews_hist cf rf lf hok n, List.length_take, List.length_map,
      List.length_reverse, List.length_range]
    omega
  · intro k hk
    rw [reviewCode_of_some_ok _ _ _ _ _ _ (rf (k + 1)) rfl (hok (k + 1))]

theorem C1_bounded_history_witness :
    (runReviews (fun _ => "print(1)") (fun _ => "fine") (fun _ => none) 12).state.reviewHistory
      = (((List.range 12).reverse.map
            (fun k => recAt (fun _ => "print(1)") (fun _ => "fine") (k + 1))).take 10)
    ∧ (runReviews (fun _ => "print(1)") (fun _ => "fine")
        (fun _ => none) 12).state.reviewHistory.length = min 12 10 :=
  ⟨(C1_bounded_history (fun _ => "print(1)") (fun _ => "fine") (fun _ => none) 12
      (fun _ => rfl)).1,
   (C1_bounded_history (fun _ => "print(1)") (fun _ => "fine") (fun _ => none) 12
      (fun _ => rfl)).2.1⟩

/-- Claim C2 (refuted — code bug, two faults): (1) the learning path never
records anything — on the stub call whose review carries two `Issue:`
phrases, `learnFromReview`'s `INSERT ... ON CONFLICT(pattern)` statement
is rejected by SQLite (no UNIQUE/PRIMARY KEY on `pattern`), the call
returns failure and the pattern table stays empty; (2) independently, the
query feeding the prompt filters `pattern_type = 'common_issue'`, which no
code path writes, so even on a table that does hold `detected_issue` rows
the query returns nothing and the prompt's common-issues clause is empty.
Learned patterns therefore never reach any prompt. -/
theorem C2_learned_patterns_never_reach_prompt :
    ((reviewCode initialAgent "def f(): pass" (some "python")
        (fun _ => some "Issue: missing docstring. Issue: no return type annotation.")
        1 "r1").2.success = false)
    ∧ ((reviewCode initialAgent "def f(): pass" (some "python")
        (fun _ => some "Issue: missing docstring. Issue: no return type annotation.")
        1 "r1").1.db.reviewPatterns = [])
    ∧ selectRecentPatterns
        { emptyDb with
          reviewPatterns :=
            [{ id := 1, patternType := "detected_issue",
               pattern := "Issue: missing docstring", frequency := 3, lastSeen := 0,
               userFeedback := none },
             { id := 2, patternType := "detected_issue",
               pattern := "Issue: no return type annotation", frequency := 2,
               lastSeen := 0, userFeedback := none }] } = []
    ∧ promptPatternClause [] = "" := by
  decide

/-- Claim C4 (refuted — code bug): `reviewCode` can return the failure
object after having persisted.  From the initial state, with inference
returning a review that contains an `Issue:` phrase, `storeReview` first
inserts the snippet row and appends the history record; then
`learnFromReview`'s broken `ON CONFLICT(pattern)` statement throws, the
`catch` returns `{success: false}`, and both writes remain — failure with
partial persistence, contradicting the claimed atomicity.  (The pattern
table alone stays empty: the erroring statement never writes.) -/
theorem C4_failure_after_partial_persistence :
    ((reviewCode initialAgent "x = eval(s)" none
        (fun _ => some "Issue: unsafe eval.") 1 "r1").2.success = false)
    ∧ ((reviewCode initialAgent "x = eval(s)" none
        (fun _ => some "Issue: unsafe eval.") 1 "r1").1.db.codeSnippets
      = [{ id := 1, code := "x = eval(s)", language := "python",
           review := "Issue: unsafe eval.", issuesFound := 1, timestamp := 1 }])
    ∧ ((reviewCode initialAgent "x = eval(s)" none
        (fun _ => some "Issue: unsafe eval.") 1 "r1").1.state.reviewHistory
      = [{ id := "r1", code := "x = eval(s)", review := "Issue: unsafe eval.",
           timestamp := 1, accepted := false }])
    ∧ ((reviewCode initialAgent "x = eval(s)" none
        (fun _ => some "Issue: unsafe eval.") 1 "r1").1.db.reviewPatterns = []) := by
  decide

/-- Claim C5: `provideFeedback` with a reviewId not present in the current
history returns `{success := true}` and changes nothing at all. -/
theorem C5_feedback_miss_silent_noop (a : Agent) (reviewId : String) (helpful : Bool)
    (comments : Option String) (now : Nat)
    (h : ∀ r ∈ a.state.reviewHistory, r.id ≠ reviewId) :
    provideFeedback a reviewId helpful comments now = (a, { success := true }) :=
  provideFeedback_of_absent a reviewId helpful comments now h

theorem C5_feedback_miss_silent_noop_witness :
    provideFeedback initialAgent "missing-id" false (some "comment") 3
      = (initialAgent, { success := true }) :=
  C5_feedback_miss_silent_noop initialAgent "missing-id" false (some "comment") 3
    (by decide)

/-- Claim C6: `updatePreferences` shallow-merges the supplied partial
object: each supplied field overrides, each absent field is unchanged;
history, patterns summary, userId and the whole database are untouched;
the call returns the merged preferences; in particular supplying only
`strictness := "strict"` changes only that field. -/
theorem C6_update_preferences_shallow_merge (a : Agent) (p : PartialPreferences) :
    (updatePreferences a p).1.state.preferences.language
        = p.language.getD a.state.preferences.language
    ∧ (updatePreferences a p).1.state.preferences.styleGuide
        = p.styleGuide.getD a.state.preferences.styleGuide
    ∧ (updatePreferences a p).1.state.preferences.strictness
        = p.strictness.getD a.state.preferences.strictness
    ∧ (updatePreferences a p).1.state.preferences.focusAreas
        = p.focusAreas.getD a.state.preferences.focusAreas
    ∧ (updatePreferences a p).1.state.reviewHistory = a.state.reviewHistory
    ∧ (updatePreferences a p).1.state.patterns = a.state.patterns
    ∧ (updatePreferences a p).1.state.userId = a.state.userId
    ∧ (updatePreferences a p).1.db = a.db
    ∧ (updatePreferences a p).2
        = { success := true, preferences := (updatePreferences a p).1.state.preferences }
    ∧ (updatePreferences a
        { language := none, styleGuide := none, strictness := some "strict",
          focusAreas := none }).1.state.preferences
        = { a.state.preferences with strictness := "strict" } :=
  ⟨rfl, rfl, rfl, rfl, rfl, rfl, rfl, rfl, rfl, rfl⟩
/-- Claim C3 (refuted — code bug): the upsert never happens.  The
`review_patterns` schema has no PRIMARY KEY or UNIQUE constraint on
`pattern`, so SQLite rejects `INSERT ... ON CONFLICT(pattern) DO UPDATE`
outright; `learnFromReview` throws on the first extracted phrase and
writes nothing.  Learning the phrase "Issue: x" twice therefore yields no
PatternRecord at all (not one row with frequency 2), and both carrying
`reviewCode` calls return failure. -/
theorem C3_upsert_statement_errors :
    learnFromReview initialAgent "Issue: x." 1
      = Except.error SqlError.onConflictNoUniqueIndex
    ∧ ((reviewCode initialAgent "c" none (fun _ => some "Issue: x.") 1 "r1").2.success
        = false)
    ∧ ((reviewCode (reviewCode initialAgent "c" none
          (fun _ => some "Issue: x.") 1 "r1").1 "c" none
          (fun _ => some "Issue: x.") 2 "r2").2.success = false)
    ∧ ((reviewCode (reviewCode initialAgent "c" none
          (fun _ => some "Issue: x.") 1 "r1").1 "c" none
          (fun _ => some "Issue: x.") 2 "r2").1.db.reviewPatterns = []) := by
  refine ⟨rfl, rfl, rfl, rfl⟩

/-- Claim C7 (refuted as stated): a `provideFeedback` call with
`helpful = false` and non-empty comments whose reviewId is not in the
history inserts nothing at all — the negative-feedback insert sits inside
the found branch, so it is not unconditional over all calls. -/
theorem C7_always_insert_cex :
    (provideFeedback initialAgent "r1" false (some "too strict") 7).1 = initialAgent
    ∧ initialAgent.db.reviewPatterns = [] := by
  decide

/-- Claim C7 (amended): for every `provideFeedback` call whose reviewId is
present in the current history, with `helpful = false` and non-empty
comments, one new `user_preference` row with feedback "negative" is
appended; the insert is plain (no upsert), so a second identical call
appends a second separate row with the next id and no deduplication. -/
theorem C7_negative_feedback_inserts (a : Agent) (reviewId c : String) (n1 n2 : Nat)
    (hfound : ∃ r ∈ a.state.reviewHistory, r.id = reviewId) (hc : c ≠ "") :
    (provideFeedback a reviewId false (some c) n1).1.db.reviewPatterns
        = a.db.reviewPatterns ++
            [{ id := a.db.nextPatternId, patternType := "user_preference", pattern := c,
               frequency := 1, lastSeen := n1, userFeedback := some "negative" }]
    ∧ (provideFeedback (provideFeedback a reviewId false (some c) n1).1 reviewId false
          (some c) n2).1.db.reviewPatterns
        = a.db.reviewPatterns ++
            [{ id := a.db.nextPatternId, patternType := "user_preference", pattern := c,
               frequency := 1, lastSeen := n1, userFeedback := some "negative" },
             { id := a.db.nextPatternId + 1, patternType := "user_preference", pattern := c,
               frequency := 1, lastSeen := n2, userFeedback := some "negative" }] := by
  have hidx : a.state.reviewHistory.findIdx (fun r => r.id == reviewId)
      < a.state.reviewHistory.length := by
    obtain ⟨r, hr, hid⟩ := hfound
    exact List.findIdx_lt_length.2 ⟨r, hr, by simp [hid]⟩
  have h1 := provideFeedback_found_db a reviewId false (some c) n1 hidx ⟨rfl, hc⟩
  have hidx2 : (provideFeedback a reviewId false (some c) n1).1.state.reviewHistory.findIdx
        (fun r => r.id == reviewId)
      < (provideFeedback a reviewId false (some c) n1).1.state.reviewHistory.length := by
    have hids := provideFeedback_ids a reviewId false (some c) n1
    obtain ⟨r, hr, hid⟩ := hfound
    have hmem : reviewId
        ∈ (provideFeedback a reviewId false (some c) n1).1.state.reviewHistory.map
            (fun r => r.id) := by
      rw [hids]
      exact List.mem_map.2 ⟨r, hr, hid⟩
    obtain ⟨x, hx, hxid⟩ := List.mem_map.1 hmem
    exact List.findIdx_lt_length.2 ⟨x, hx, by simp [hxid]⟩
  have h2 := provideFeedback_found_db (provideFeedback a reviewId false (some c) n1).1
    reviewId false (some c) n2 hidx2 ⟨rfl, hc⟩
  refine ⟨by rw [h1]; rfl, ?_⟩
  rw [h2, h1]
  simp

theorem C7_negative_feedback_inserts_witness :
    (provideFeedback
        { state :=
            { initialState with
              reviewHistory := [{ id := "r1", code := "x", review := "v",
                                  timestamp := 0, accepted := false }] }
          db := emptyDb } "r1" false (some "dup") 5).1.db.reviewPatterns
      = [{ id := 1, patternType := "user_preference", pattern := "dup",
           frequency := 1, lastSeen := 5, userFeedback := some "negative" }]
    ∧ (provideFeedback
        (provideFeedback
          { state :=
              { initialState with
                reviewHistory := [{ id := "r1", code := "x", review := "v",
                                    timestamp := 0, accepted := false }] }
            db := emptyDb } "r1" false (some "dup") 5).1 "r1" false (some "dup") 6).1.db.reviewPatterns
      = [{ id := 1, patternType := "user_preference", pattern := "dup",
           frequency := 1, lastSeen := 5, userFeedback := some "negative" },
         { id := 2, patternType := "user_preference", pattern := "dup",
           frequency := 1, lastSeen := 6, userFeedback := some "negative" }] :=
  C7_negative_feedback_inserts
    { state :=
        { initialState with
          reviewHistory := [{ id := "r1", code := "x", review := "v",
                              timestamp := 0, accepted := false }] }
      db := emptyDb } "r1" "dup" 5 6 (by decide) (by decide)

/-- Claim C8: on every `reviewCode` call whose inference returns text —
in particular on every successful call — `storeReview` inserts exactly
one snippet row whose `issues_found` is `countIssues` of the generated
text (the count of case-insensitive occurrences of issue, problem, error,
warning, concern); the later pattern-learning step never touches the
snippet table, whether it returns or throws.  On the text "Issue: missing
docstring. Issue: no return type annotation." the count is 2.  (That
particular call then fails overall — the learning statement throws, see
the C4 finding — but its snippet row with `issues_found = 2` persists.) -/
theorem C8_issues_found_count (a : Agent) (code : String) (language : Option String)
    (ai : String → Option String) (now : Nat) (newId review : String)
    (h : ai (reviewPromptFor a code language) = some review) :
    (reviewCode a code language ai now newId).1.db.codeSnippets
        = a.db.codeSnippets ++
            [{ id := a.db.nextSnippetId, code := code,
               language := language.getD a.state.preferences.language, review := review,
               issuesFound := countIssues review, timestamp := now }]
    ∧ countIssues "Issue: missing docstring. Issue: no return type annotation." = 2 := by
  constructor
  · by_cases hext : extractIssuePatterns review = []
    · rw [reviewCode_of_some_ok a code language ai now newId review h hext]
      rfl
    · rw [reviewCode_of_some_err a code language ai now newId review h hext]
      rfl
  · decide

theorem C8_issues_found_count_witness :
    (reviewCode initialAgent "def f(): pass" (some "python")
        (fun _ => some "Issue: missing docstring. Issue: no return type annotation.")
        4 "r9").1.db.codeSnippets
      = [{ id := 1, code := "def f(): pass", language := "python",
           review := "Issue: missing docstring. Issue: no return type annotation.",
           issuesFound := countIssues "Issue: missing docstring. Issue: no return type annotation.",
           timestamp := 4 }]
    ∧ countIssues "Issue: missing docstring. Issue: no return type annotation." = 2 :=
  C8_issues_found_count initialAgent "def f(): pass" (some "python")
    (fun _ => some "Issue: missing docstring. Issue: no return type annotation.")
    4 "r9" "Issue: missing docstring. Issue: no return type annotation." rfl
/-- Pushing on a bounded list keeps a prefix of the old list as tail. -/
theorem cons_bounded_prefix {α : Type} (x : α) (l : List α) :
    ∃ rest, rest <+: l ∧
      (if (x :: l).length > 10 then (x :: l).dropLast else x :: l) = x :: rest := by
  rcases le_or_lt (x :: l).length 10 with hle | hlt
  · rw [if_neg (by omega)]
    exact ⟨l, List.prefix_refl _, rfl⟩
  · rw [if_pos hlt]
    cases l with
    | nil => simp at hlt
    | cons o t =>
      refine ⟨(o :: t).dropLast, ?_, List.dropLast_cons₂⟩
      rw [List.dropLast_eq_take]
      exact List.take_prefix _ _

/-- Claim C9 (refuted as stated): the record created by a successful
`reviewCode` call has `accepted = false` — a definite boolean — not an
unset tri-state value. -/
theorem C9_accepted_created_false :
    (reviewCode initialAgent "c" none (fun _ => some "r") 1 "id1").1.state.reviewHistory
      = [{ id := "id1", code := "c", review := "r", timestamp := 1, accepted := false }] := by
  decide

/-- Claim C9 (amended): every ReviewRecord is created by
`storeReview` with `accepted = false`; `provideFeedback` changes at most
the `accepted` field of the record whose id matches, leaving every other
record untouched; `updatePreferences` never touches the history, and
`learnFromReview` either returns with the agent unchanged or throws the
SQL error having written nothing; records disappear only by eviction of
the oldest entries (the post-store history is the new record consed onto
a prefix of the old history). -/
theorem C9_record_lifecycle :
    (∀ (a : Agent) (c r l : String) (now : Nat) (nid : String),
       ∃ rest, rest <+: a.state.reviewHistory ∧
         (storeReview a c r l now nid).state.reviewHistory
           = { id := nid, code := c, review := r, timestamp := now,
               accepted := false } :: rest)
    ∧ (∀ (a : Agent) (rid : String) (b : Bool) (c : Option String) (now : Nat),
        (provideFeedback a rid b c now).1.state.reviewHistory.length
            = a.state.reviewHistory.length
        ∧ ∀ j : Nat,
            (provideFeedback a rid b c now).1.state.reviewHistory[j]?
                = a.state.reviewHistory[j]?
            ∨ ∃ o, a.state.reviewHistory[j]? = some o ∧ o.id = rid
                ∧ (provideFeedback a rid b c now).1.state.reviewHistory[j]?
                    = some { o with accepted := b })
    ∧ (∀ (a : Agent) (p : PartialPreferences),
        (updatePreferences a p).1.state.reviewHistory = a.state.reviewHistory)
    ∧ (∀ (a : Agent) (r : String) (now : Nat),
        learnFromReview a r now = Except.ok a
        ∨ learnFromReview a r now = Except.error SqlError.onConflictNoUniqueIndex) := by
  refine ⟨?_, ?_, fun a p => rfl, fun a r now => learnFromReview_cases a r now⟩
  · intro a c r l now nid
    rw [storeReview_hist]
    exact cons_bounded_prefix _ _
  · intro a rid b c now
    by_cases h : a.state.reviewHistory.findIdx (fun x => x.id == rid)
        < a.state.reviewHistory.length
    · constructor
      · rw [provideFeedback_found_hist a rid b c now h, List.length_set]
      · intro j
        by_cases hj : a.state.reviewHistory.findIdx (fun x => x.id == rid) = j
        · right
          subst hj
          refine ⟨a.state.reviewHistory.get
            ⟨a.state.reviewHistory.findIdx (fun x => x.id == rid), h⟩, ?_, ?_, ?_⟩
          · exact List.getElem?_eq_getElem h
          · have hp := @List.findIdx_getElem _ (fun x => x.id == rid)
              a.state.reviewHistory h
            simpa using hp
          · rw [provideFeedback_found_hist a rid b c now h]
            exact List.getElem?_set_self h
        · left
          rw [provideFeedback_found_hist a rid b c now h]
          exact List.getElem?_set_ne hj
    · have habs : ∀ x ∈ a.state.reviewHistory, x.id ≠ rid := by
        intro x hx hcontra
        exact h (List.findIdx_lt_length.2 ⟨x, hx, by simp [hcontra]⟩)
      rw [provideFeedback_of_absent a rid b c now habs]
      exact ⟨rfl, fun j => Or.inl rfl⟩

/-- Claim C10: every phrase stored by `learnFromReview` is the full regex
match including the `Issue:` marker and contains no period (extraction
stops before the next one); and whenever pattern rows are interpolated
into a prompt, the prompt contains the common-issues clause listing the
stored texts verbatim — marker included. -/
theorem C10_extracted_pattern_shape :
    (∀ (s m : String), m ∈ extractIssuePatterns s →
        issueMarker <+: m.toList ∧ '.' ∉ m.toList)
    ∧ (∀ (code lang : String) (prefs : Preferences) (ps : List PatternRow), ps ≠ [] →
        buildReviewPrompt code lang prefs ps
          = promptHead lang prefs
            ++ ("\nCommon issues to check: "
                  ++ String.intercalate ", " (ps.map (fun p => p.pattern)))
            ++ promptTail lang code) := by
  constructor
  · intro s m hm
    obtain ⟨l, hl, hml⟩ := List.mem_map.1 hm
    have h := extractAux_sound _ _ l hl
    rw [← hml]
    exact h
  · intro code lang prefs ps hps
    unfold buildReviewPrompt promptPatternClause
    rw [if_pos (List.length_pos.2 hps)]

theorem C10_extracted_pattern_shape_witness :
    (issueMarker <+: ("Issue: a".toList) ∧ '.' ∉ ("Issue: a".toList))
    ∧ buildReviewPrompt "x = 1" "python" initialState.preferences
        [{ id := 1, patternType := "common_issue", pattern := "Issue: a",
           frequency := 1, lastSeen := 0, userFeedback := none }]
      = promptHead "python" initialState.preferences
        ++ ("\nCommon issues to check: " ++ String.intercalate ", " ["Issue: a"])
        ++ promptTail "python" "x = 1" :=
  ⟨C10_extracted_pattern_shape.1 "Issue: a." "Issue: a" (by decide),
   C10_extracted_pattern_shape.2 "x = 1" "python" initialState.preferences
     [{ id := 1, patternType := "common_issue", pattern := "Issue: a",
        frequency := 1, lastSeen := 0, userFeedback := none }] (by decide)⟩
